import Mathlib

/-!
Verification development for the ChimariData_Flowise repository.

The repository is a set of independent Python command-line scripts and two
small services built on pandas.  This file gives a shallow embedding of the
pieces of that code that the checked claims are about:

* the pandas transformation engine of
  `attached_assets/pandas-transformation-service_1757721201655.py`
  (`apply_transformations`, `_apply_filter`, `_apply_select`,
  `_apply_aggregate`, `_apply_sort`, `_apply_rename`, `_apply_convert`,
  `_apply_clean`);
* the correlation surfacing of `python_scripts/data_analyzer.py`
  (`run_regression`);
* the per-script exit codes and error JSON payloads of the CLI entry points;
* schema inference in `attached_assets/pandas-analyzer_1757721245016.py`
  (`DataAnalyzer._generate_schema`) and `server/fastapi-backend.py`
  (`upload_project`);
* the bearer-token authentication of `server/fastapi-backend.py`
  (`get_current_user`, `list_projects`, `get_project`);
* `generate_imputation_recommendations` of
  `python_scripts/missing_data_analyzer.py`;
* `test_normality_shapiro` of `python_scripts/normality_tester.py`.

Modelling conventions.  Python numbers (int and float) are modelled exactly
as rationals; pandas missing values (NaN/None) are a dedicated `vnull`
value; a pandas `Timestamp` is an opaque `vdate` carrying its rendered
string.  Library routines whose internals are out of scope (scipy's
`shapiro`, numpy's `random.choice`, pandas' date parser) enter the
embedding as function parameters, with their documented contracts as
hypotheses.  String helpers (`replace`, `startswith`, `strip`, substring
tests) are re-implemented structurally so that all definitions evaluate by
kernel reduction.
-/

namespace ChimariData

/-! ## Python scalar values -/

/-- A Python scalar value as it occurs in dataset rows and JSON configs.
`vnum` covers both Python `int` and `float`, modelled exactly as a
rational; `vnull` models both Python `None` and pandas `NaN`; `vdate`
models a pandas `Timestamp`, carrying its rendered string. -/
inductive PVal where
  | vnull : PVal
  | vbool : Bool → PVal
  | vnum : ℚ → PVal
  | vstr : String → PVal
  | vdate : String → PVal
deriving DecidableEq, Repr

/-- Python truthiness (`bool(v)`): `None`, `False`, `0` and `""` are falsy. -/
def PVal.truthy : PVal → Bool
  | .vnull => false
  | .vbool b => b
  | .vnum q => decide (q ≠ 0)
  | .vstr s => decide (s ≠ "")
  | .vdate _ => true

/-- Truthiness of `dict.get(key)`: a missing key yields `None`, which is falsy. -/
def truthyOpt : Option PVal → Bool
  | none => false
  | some v => v.truthy

/-- Python `==` on scalars, including the `True == 1` / `False == 0`
numeric interoperation; values of unrelated types compare unequal. -/
def pyEq : PVal → PVal → Bool
  | .vbool a, .vbool b => a == b
  | .vbool a, .vnum q => decide ((if a then (1 : ℚ) else 0) = q)
  | .vnum q, .vbool b => decide (q = (if b then (1 : ℚ) else 0))
  | .vnum a, .vnum b => decide (a = b)
  | .vstr a, .vstr b => a == b
  | .vdate a, .vdate b => a == b
  | .vnull, .vnull => true
  | _, _ => false

/-- Python `str(v)`.  For a non-integral rational the rendering is the
Lean `Rat` rendering, a model of Python float formatting. -/
def pyStr : PVal → String
  | .vnull => "None"
  | .vbool true => "True"
  | .vbool false => "False"
  | .vnum q => if q.den = 1 then toString q.num else toString q
  | .vstr s => s
  | .vdate s => s

/-- Structural substring test on character lists: does `pat` occur in the list? -/
def listContainsSub (pat : List Char) : List Char → Bool
  | [] => pat.isEmpty
  | c :: cs => pat.isPrefixOf (c :: cs) || listContainsSub pat cs

/-- Python `pat in s` substring test. -/
def strContains (s pat : String) : Bool := listContainsSub pat.data s.data

/-- Python `s.startswith(pat)`. -/
def pyStartsWith (s pat : String) : Bool := pat.data.isPrefixOf s.data

/-- Fuel-driven worker for `pyReplace`; replaces left to right, without overlap. -/
def replaceAux (pat rep : List Char) : Nat → List Char → List Char
  | _, [] => []
  | 0, rest => rest
  | Nat.succ fuel, c :: cs =>
    if pat.isPrefixOf (c :: cs) then rep ++ replaceAux pat rep fuel ((c :: cs).drop pat.length)
    else c :: replaceAux pat rep fuel cs

/-- Python `s.replace(pat, rep)`: every occurrence is replaced.  The
empty-pattern case (which Python treats as inserting `rep` everywhere)
is not needed by the embedded code and is modelled as the identity. -/
def pyReplace (s pat rep : String) : String :=
  if pat.data.isEmpty then s
  else ⟨replaceAux pat.data rep.data (s.data.length + 1) s.data⟩

/-- Python `s.strip()`: remove leading and trailing whitespace. -/
def pyStrip (s : String) : String :=
  ⟨((s.data.dropWhile Char.isWhitespace).reverse.dropWhile Char.isWhitespace).reverse⟩

/-- Decimal-literal parser for unsigned numbers, the core of `parseRat?`. -/
def parseNonnegRat? (s : String) : Option ℚ :=
  match s.splitOn "." with
  | [w] => w.toNat?.map (fun n => (n : ℚ))
  | [w, f] =>
    match w.toNat?, f.toNat? with
    | some n, some fn => some ((n : ℚ) + (fn : ℚ) / (10 : ℚ) ^ f.length)
    | _, _ => none
  | _ => none

/-- Model of numeric-string parsing as done by Python `float(...)` and
`pandas.to_numeric`: optional sign and decimal point (scientific notation
is outside the model). -/
def parseRat? (s : String) : Option ℚ :=
  let t := pyStrip s
  if pyStartsWith t "-" then (parseNonnegRat? (t.drop 1)).map Neg.neg
  else if pyStartsWith t "+" then parseNonnegRat? (t.drop 1)
  else parseNonnegRat? t

/-- Model of `pandas.to_numeric(·, errors="coerce")` on a scalar, and of
Python `float(·)` where `none` stands for the raised `ValueError`/
`TypeError`: numbers pass through, booleans coerce to 0/1, numeric
strings parse, everything else is not a number. -/
def toNumeric? : PVal → Option ℚ
  | .vnum q => some q
  | .vbool b => some (if b then 1 else 0)
  | .vstr s => parseRat? s
  | _ => none

/-! ## DataFrame model

A pandas `DataFrame` is modelled as a list of column labels plus a list of
rows; each row is a list of cells parallel to the labels.  A record, as
produced by `DataFrame(data)` / `to_dict("records")`, is an association
list from column label to value. -/

structure DataFrame where
  cols : List String
  rows : List (List PVal)
deriving DecidableEq, Repr

/-- A row of the JSON input/output of the transformation service: one
Python dict mapping column names to values. -/
abbrev Record := List (String × PVal)

/-- Cell of a row at a given column label; missing labels and short rows
read as missing values. -/
def getCell (cols : List String) (row : List PVal) (c : String) : PVal :=
  match cols.findIdx? (· == c) with
  | some i => row.getD i .vnull
  | none => .vnull

/-- All cells of one column, top to bottom. -/
def colCells (df : DataFrame) (c : String) : List PVal :=
  df.rows.map (fun r => getCell df.cols r c)

/-- Column labels of `pd.DataFrame(records)`: keys in order of first appearance. -/
def collectCols : List Record → List String → List String
  | [], acc => acc
  | r :: rs, acc =>
    collectCols rs (r.foldl (fun a kv => if a.contains kv.1 then a else a ++ [kv.1]) acc)

/-- Model of `pd.DataFrame(data)` for a list of records: keys missing from
a record become missing values. -/
def dfOfRecords (data : List Record) : DataFrame :=
  let cols := collectCols data []
  { cols := cols,
    rows := data.map (fun r => cols.map (fun c => ((r.find? (·.1 == c)).map (·.2)).getD .vnull)) }

/-- Model of `df.to_dict("records")`. -/
def toRecords (df : DataFrame) : List Record :=
  df.rows.map (fun r => df.cols.enum.map (fun ic => (ic.2, r.getD ic.1 .vnull)))

/-! ## Transformation engine

Embedding of `PandasTransformationEngine` from
`attached_assets/pandas-transformation-service_1757721201655.py`. -/

/-- One entry of an `aggregations` list in an aggregate config. -/
structure AggSpec where
  field : Option String := none
  operation : Option String := none
  aliasName : Option String := none
deriving DecidableEq, Repr

/-- The configuration dict of one transformation.  The Python code reads a
plain dict; each key used by some handler appears here, with `none` / `[]`
standing for an absent key. -/
structure TConfig where
  field : Option PVal := none
  operator : Option PVal := none
  value : Option PVal := none
  fields : List String := []
  groupBy : List String := []
  aggregations : List AggSpec := []
  order : Option PVal := none
  mappings : List (String × String) := []
  newType : Option PVal := none
  removeNulls : Option PVal := none
  trimWhitespace : Option PVal := none
deriving DecidableEq, Repr

/-- One element of the `transformations` list: `transformation.get("type")`
plus `transformation.get("config", {})`. -/
structure Transformation where
  ttype : Option String := none
  config : TConfig := {}
deriving DecidableEq, Repr

/-- Operator dispatch of `_apply_filter` (the `if operator == ... : elif ... : else`
chain); unknown operators return the dataframe unchanged, and a failing
`float(value)` conversion is the caught exception branch, also unchanged. -/
def applyFilterOp (df : DataFrame) (f : String) (op : String) (val : PVal) : DataFrame :=
  if op = "equals" then
    { df with rows := df.rows.filter (fun r => pyEq (getCell df.cols r f) val) }
  else if op = "not_equals" then
    { df with rows := df.rows.filter (fun r => ! pyEq (getCell df.cols r f) val) }
  else if op = "contains" then
    { df with rows := df.rows.filter (fun r => strContains (pyStr (getCell df.cols r f)) (pyStr val)) }
  else if op = "greater_than" then
    match toNumeric? val with
    | none => df
    | some v =>
      { df with rows := df.rows.filter (fun r =>
          match toNumeric? (getCell df.cols r f) with
          | some x => decide (v < x)
          | none => false) }
  else if op = "less_than" then
    match toNumeric? val with
    | none => df
    | some v =>
      { df with rows := df.rows.filter (fun r =>
          match toNumeric? (getCell df.cols r f) with
          | some x => decide (x < v)
          | none => false) }
  else df

/-- Embedding of `_apply_filter`: the `not all([field, operator, value])`
falsiness guard, the column-membership guard (a non-string `field` is
never among the string column labels), then the operator dispatch. -/
def applyFilter (df : DataFrame) (config : TConfig) : DataFrame :=
  if ¬ (truthyOpt config.field && truthyOpt config.operator && truthyOpt config.value) then df
  else
    match config.field with
    | some (.vstr f) =>
      if f ∉ df.cols then df
      else
        match config.operator with
        | some (.vstr op) => applyFilterOp df f op (config.value.getD .vnull)
        | _ => df
    | _ => df

/-- Embedding of `_apply_select`: keep only the existing requested columns,
in request order; an empty or fully invalid request is the identity. -/
def applySelect (df : DataFrame) (config : TConfig) : DataFrame :=
  if config.fields.isEmpty then df
  else
    let valid := config.fields.filter (fun f => df.cols.contains f)
    if valid.isEmpty then df
    else { cols := valid, rows := df.rows.map (fun r => valid.map (getCell df.cols r)) }

/-- Is the cell numeric-like for pandas comparison purposes (numbers and booleans)? -/
def isNumCell : PVal → Bool
  | .vnum _ => true
  | .vbool _ => true
  | _ => false

/-- Is the cell a string? -/
def isStrCell : PVal → Bool
  | .vstr _ => true
  | _ => false

/-- A column mixing strings with numbers cannot be ordered by pandas: a
comparison raises `TypeError`. -/
def mixedCol (df : DataFrame) (c : String) : Bool :=
  (colCells df c).any isNumCell && (colCells df c).any isStrCell

/-- Comparison rank used to order values of different kinds; missing
values order last, a model of pandas placing NaN last. -/
def pvalRank : PVal → Nat
  | .vbool _ => 0
  | .vnum _ => 0
  | .vstr _ => 1
  | .vdate _ => 2
  | .vnull => 3

/-- Boolean comparison on cell values: numeric kinds compare numerically
(with `True = 1`, `False = 0`), strings and dates lexicographically;
otherwise by kind rank. -/
def pvalLe (a b : PVal) : Bool :=
  match a, b with
  | .vnum x, .vnum y => decide (x ≤ y)
  | .vbool x, .vnum y => decide ((if x then (1 : ℚ) else 0) ≤ y)
  | .vnum x, .vbool y => decide (x ≤ (if y then (1 : ℚ) else 0))
  | .vbool x, .vbool y => !x || y
  | .vstr x, .vstr y => decide (x ≤ y)
  | .vdate x, .vdate y => decide (x ≤ y)
  | a, b => decide (pvalRank a ≤ pvalRank b)

/-- Lexicographic extension of `pvalLe` to key tuples. -/
def pvalListLe : List PVal → List PVal → Bool
  | [], _ => true
  | _ :: _, [] => false
  | a :: as, b :: bs => if a = b then pvalListLe as bs else pvalLe a b

/-- Stable insertion into a sorted list. -/
def insertSorted (le : α → α → Bool) (x : α) : List α → List α
  | [] => [x]
  | y :: ys => if le x y then x :: y :: ys else y :: insertSorted le x ys

/-- Stable insertion sort; the model of pandas row/group ordering (pandas
leaves tie order unspecified, the model resolves ties by input order). -/
def sortByBool (le : α → α → Bool) (l : List α) : List α :=
  l.foldr (insertSorted le) []

/-- The tuple of group-key cells of one row. -/
def keyTuple (cols : List String) (gb : List String) (row : List PVal) : List PVal :=
  gb.map (getCell cols row)

/-- Sum of a list of rationals. -/
def qsum (xs : List ℚ) : ℚ := xs.foldr (· + ·) 0

/-- Arithmetic mean (0 on the empty list, callers guard emptiness). -/
def qmean (xs : List ℚ) : ℚ := qsum xs / (xs.length : ℚ)

/-- The numeric cells of a column, as used by pandas aggregation (NaN and
strings are skipped, booleans count as 0/1). -/
def numericVals (vs : List PVal) : List ℚ :=
  vs.filterMap (fun v => match v with
    | .vnum q => some q
    | .vbool b => some (if b then 1 else 0)
    | _ => none)

/-- Minimum of the non-null cells of a group column under `pvalLe`. -/
def pvalMin (vs : List PVal) : PVal :=
  match vs.filter (fun v => decide (v ≠ .vnull)) with
  | [] => .vnull
  | x :: rest => rest.foldl (fun a b => if pvalLe b a then b else a) x

/-- Maximum of the non-null cells of a group column under `pvalLe`. -/
def pvalMax (vs : List PVal) : PVal :=
  match vs.filter (fun v => decide (v ≠ .vnull)) with
  | [] => .vnull
  | x :: rest => rest.foldl (fun a b => if pvalLe a b then b else a) x

/-- One pandas aggregation applied to the cells of a group column. -/
def aggValues (op : String) (vs : List PVal) : PVal :=
  if op = "count" then .vnum ((vs.countP (fun v => decide (v ≠ .vnull)) : ℕ) : ℚ)
  else if op = "sum" then .vnum (qsum (numericVals vs))
  else if op = "mean" then
    let ns := numericVals vs
    if ns.isEmpty then .vnull else .vnum (qmean ns)
  else if op = "min" then pvalMin vs
  else if op = "max" then pvalMax vs
  else .vnull

/-- Insertion into a Python dict modelled as an association list: an
existing key is updated in place, a new key is appended. -/
def dictInsert (d : List (String × String)) (k v : String) : List (String × String) :=
  if d.any (·.1 == k) then d.map (fun p => if p.1 == k then (k, v) else p)
  else d ++ [(k, v)]

/-- The `agg_dict` construction loop of `_apply_aggregate`: skip entries
whose field is absent from the dataframe, map the five known operation
names to pandas functions, ignore unknown operations. -/
def buildAggDict (cols : List String) : List AggSpec → List (String × String) → List (String × String)
  | [], d => d
  | a :: rest, d =>
    match a.field with
    | none => buildAggDict cols rest d
    | some f =>
      if f ∉ cols then buildAggDict cols rest d
      else if a.operation = some "sum" then buildAggDict cols rest (dictInsert d f "sum")
      else if a.operation = some "avg" then buildAggDict cols rest (dictInsert d f "mean")
      else if a.operation = some "count" then buildAggDict cols rest (dictInsert d f "count")
      else if a.operation = some "min" then buildAggDict cols rest (dictInsert d f "min")
      else if a.operation = some "max" then buildAggDict cols rest (dictInsert d f "max")
      else buildAggDict cols rest d

/-- The alias-renaming loop after aggregation: rename `field` to `alias`
when the alias is present, truthy, different from the field, and the field
is still a column. -/
def applyAliases (g : DataFrame) : List AggSpec → DataFrame
  | [] => g
  | a :: rest =>
    let g2 :=
      match a.field, a.aliasName with
      | some f, some al =>
        if f ∈ g.cols ∧ al ≠ "" ∧ al ≠ f then
          { g with cols := g.cols.map (fun c => if c = f then al else c) }
        else g
      | _, _ => g
    applyAliases g2 rest

/-- Embedding of `_apply_aggregate`: validate the config, build the
aggregation dict, group by the valid keys, aggregate each group column,
then apply aliases.  Rows whose group key holds a missing value are
dropped, as pandas `groupby` does by default (`dropna=True`); the
remaining groups are sorted by key (pandas default `sort=True`).  A
group-key column mixing strings and numbers makes pandas raise while
sorting the groups; the exception is caught by the handler in the
source, returning the dataframe unchanged. -/
def applyAggregate (df : DataFrame) (config : TConfig) : DataFrame :=
  if config.groupBy.isEmpty || config.aggregations.isEmpty then df
  else
    let validGB := config.groupBy.filter (fun f => df.cols.contains f)
    if validGB.isEmpty then df
    else
      let aggDict := buildAggDict df.cols config.aggregations []
      if aggDict.isEmpty then df
      else
        let kept := df.rows.filter
          (fun r => (keyTuple df.cols validGB r).all (fun v => decide (v ≠ PVal.vnull)))
        let dfKept : DataFrame := { df with rows := kept }
        if validGB.any (mixedCol dfKept) then df
        else
          let keys := sortByBool pvalListLe ((kept.map (keyTuple df.cols validGB)).eraseDups)
          let grouped : DataFrame :=
            { cols := validGB ++ aggDict.map (·.1),
              rows := keys.map (fun k =>
                let grp := kept.filter (fun r => keyTuple df.cols validGB r == k)
                k ++ aggDict.map (fun fo => aggValues fo.2 (grp.map (fun r => getCell df.cols r fo.1)))) }
          applyAliases grouped config.aggregations

/-- Lexicographic row-key comparison used by the sort embedding: a
missing value orders after every other value in BOTH directions,
matching pandas `sort_values` keeping NaN last (`na_position="last"`)
for ascending and descending sorts alike; non-null components compare by
`pvalLe`, flipped when descending. -/
def sortKeyLe (asc : Bool) : List PVal → List PVal → Bool
  | [], _ => true
  | _ :: _, [] => false
  | a :: as, b :: bs =>
    if a = b then sortKeyLe asc as bs
    else
      match a, b with
      | .vnull, _ => false
      | _, .vnull => true
      | x, y => if asc then pvalLe x y else pvalLe y x

/-- Embedding of `_apply_sort`.  Sorting a column that mixes strings and
numbers raises `TypeError` in pandas; `_apply_sort` has no handler of its
own, so the exception propagates to `apply_transformations`. -/
def applySort (df : DataFrame) (config : TConfig) : Except String DataFrame :=
  if config.fields.isEmpty then .ok df
  else
    let valid := config.fields.filter (fun f => df.cols.contains f)
    if valid.isEmpty then .ok df
    else if valid.any (mixedCol df) then
      .error "TypeError: unorderable types in sort_values"
    else
      let asc := (config.order.getD (.vstr "asc")) = .vstr "asc"
      .ok { df with rows := sortByBool (fun r1 r2 =>
              sortKeyLe asc (keyTuple df.cols valid r1) (keyTuple df.cols valid r2)) df.rows }

/-- Embedding of `_apply_rename`: keep the mappings whose old name is a
column and whose new name is truthy even after stripping, and rename. -/
def applyRename (df : DataFrame) (config : TConfig) : DataFrame :=
  let valid := config.mappings.filter
    (fun m => df.cols.contains m.1 && decide (m.2 ≠ "") && decide (pyStrip m.2 ≠ ""))
  if valid.isEmpty then df
  else { df with cols := df.cols.map (fun c =>
          match valid.find? (fun m => m.1 == c) with
          | some m => m.2
          | none => c) }

/-- Rewrite every cell of one column. -/
def mapCol (df : DataFrame) (c : String) (f : PVal → PVal) : DataFrame :=
  match df.cols.findIdx? (· == c) with
  | none => df
  | some i => { df with rows := df.rows.map (fun r => r.set i (f (r.getD i .vnull))) }

/-- Embedding of `_apply_convert`.  The pandas date parser is out of
scope and enters as the parameter `toDT` (`pd.to_datetime(·,
errors="coerce")` on one cell).  In the boolean branch `astype(bool)`
maps a NaN cell to True (`bool(float("nan"))` is True in Python) and
every other cell by Python truthiness. -/
def applyConvert (toDT : PVal → PVal) (df : DataFrame) (config : TConfig) : DataFrame :=
  if ¬ (truthyOpt config.field && truthyOpt config.newType) then df
  else
    match config.field with
    | some (.vstr f) =>
      if f ∉ df.cols then df
      else
        match config.newType with
        | some (.vstr "number") =>
          mapCol df f (fun v => match toNumeric? v with | some q => .vnum q | none => .vnull)
        | some (.vstr "text") => mapCol df f (fun v => .vstr (pyStr v))
        | some (.vstr "date") => mapCol df f toDT
        | some (.vstr "boolean") =>
          mapCol df f (fun v => match v with
            | .vnull => .vbool true
            | w => .vbool w.truthy)
        | _ => df
    | _ => df

/-- Embedding of `_apply_clean`: optionally drop rows holding a missing
value, optionally strip whitespace in string-typed columns (a column is
string-typed when it holds at least one string cell). -/
def applyClean (df : DataFrame) (config : TConfig) : DataFrame :=
  let df1 :=
    if truthyOpt config.removeNulls then
      { df with rows := df.rows.filter (fun r => r.all (fun v => decide (v ≠ .vnull))) }
    else df
  if truthyOpt config.trimWhitespace then
    (df1.cols.filter (fun c => (colCells df1 c).any isStrCell)).foldl
      (fun d c => mapCol d c (fun v => .vstr (pyStrip (pyStr v)))) df1
  else df1

/-- One iteration of the `apply_transformations` loop: dispatch on the
transformation type through the `transformation_methods` dict; an unknown
type only logs and leaves the dataframe unchanged. -/
def applyStep (toDT : PVal → PVal) (df : DataFrame) (t : Transformation) : Except String DataFrame :=
  if t.ttype = some "filter" then .ok (applyFilter df t.config)
  else if t.ttype = some "select" then .ok (applySelect df t.config)
  else if t.ttype = some "aggregate" then .ok (applyAggregate df t.config)
  else if t.ttype = some "sort" then applySort df t.config
  else if t.ttype = some "rename" then .ok (applyRename df t.config)
  else if t.ttype = some "convert" then .ok (applyConvert toDT df t.config)
  else if t.ttype = some "clean" then .ok (applyClean df t.config)
  else .ok df

/-- The `for transformation in transformations` loop: strictly sequential,
each step consuming the previous result; an uncaught exception aborts the
loop. -/
def applyTransformList (toDT : PVal → PVal) (df : DataFrame) : List Transformation → Except String DataFrame
  | [] => .ok df
  | t :: ts =>
    match applyStep toDT df t with
    | .ok df2 => applyTransformList toDT df2 ts
    | .error e => .error e

/-- Post-loop serialization step of `apply_transformations`: datetime
columns are rendered to strings (the `strftime` of the opaque timestamp is
its carried string). -/
def stringifyDatetimes (df : DataFrame) : DataFrame :=
  (df.cols.filter (fun c => (colCells df c).any (fun v => match v with | .vdate _ => true | _ => false))).foldl
    (fun d c => mapCol d c (fun v => match v with | .vdate s => .vstr s | w => w)) df

/-- The returned payload of `apply_transformations`; `columns` and
`transformations_applied` are absent from the error payload. -/
structure TransformResult where
  success : Bool
  error : Option String := none
  data : List Record
  original_count : Nat
  transformed_count : Nat
  columns : Option (List String) := none
  transformations_applied : Option Nat := none
deriving DecidableEq, Repr

/-- Embedding of `PandasTransformationEngine.apply_transformations`: build
the dataframe, run the loop, serialize; any exception produces the error
payload carrying the original input unchanged. -/
def apply_transformations (toDT : PVal → PVal) (data : List Record)
    (transformations : List Transformation) : TransformResult :=
  match applyTransformList toDT (dfOfRecords data) transformations with
  | .ok df1 =>
    let df2 := stringifyDatetimes df1
    { success := true,
      data := toRecords df2,
      original_count := (dfOfRecords data).rows.length,
      transformed_count := (toRecords df2).length,
      columns := some df2.cols,
      transformations_applied := some transformations.length }
  | .error e =>
    { success := false,
      error := some e,
      data := data,
      original_count := data.length,
      transformed_count := 0 }

/-! ## Moments and Pearson correlation

Numeric helpers shared by `run_regression` (data_analyzer.py) and the
skewness check of missing_data_analyzer.py.  All quantities are exact
rationals. -/

/-- Sum of squared deviations from the mean. -/
def sqDevSum (xs : List ℚ) : ℚ := qsum (xs.map (fun x => (x - qmean xs) ^ 2))

/-- Sum of cubed deviations from the mean. -/
def cubeDevSum (xs : List ℚ) : ℚ := qsum (xs.map (fun x => (x - qmean xs) ^ 3))

/-- Sum of products of paired deviations (the covariance numerator). -/
def covDevSum (xs ys : List ℚ) : ℚ :=
  qsum ((xs.zip ys).map (fun p => (p.1 - qmean xs) * (p.2 - qmean ys)))

/-- A Python float as produced by the statistics code, represented
exactly: `nan` is IEEE NaN, and `ratio a b` denotes the real number
a / sqrt b (with b positive); a rational float q is `ratio q 1`. -/
inductive PFloat where
  | nan : PFloat
  | ratio : ℚ → ℚ → PFloat
deriving DecidableEq, Repr

/-- Model of `np.isnan` on a `PFloat`. -/
def PFloat.isnan : PFloat → Bool
  | .nan => true
  | .ratio _ _ => false

/-- Model of `Series.corr` (Pearson): NaN when fewer than two paired
observations or when either series has zero variance; otherwise the exact
value covDevSum / sqrt (sqDevSum xs * sqDevSum ys) — the 1/(n-1)
normalizations cancel. -/
def seriesCorr (xs ys : List ℚ) : PFloat :=
  if xs.length < 2 ∨ sqDevSum xs = 0 ∨ sqDevSum ys = 0 then .nan
  else .ratio (covDevSum xs ys) (sqDevSum xs * sqDevSum ys)

/-- Line 148 of data_analyzer.py: `float(corr) if not np.isnan(corr) else 0.0`. -/
def surfacedCorr (xs ys : List ℚ) : PFloat :=
  if (seriesCorr xs ys).isnan then .ratio 0 1 else seriesCorr xs ys

/-- The numeric dataframe seen by `run_regression`: named columns of
rationals (the correlation path of the source assumes numeric columns; a
non-numeric column would raise and the analysis would return its error
payload instead). -/
structure NumDataFrame where
  cols : List (String × List ℚ)
deriving Repr

/-- Column lookup, `df[name]`. -/
def NumDataFrame.col? (df : NumDataFrame) (c : String) : Option (List ℚ) :=
  (df.cols.find? (·.1 == c)).map (·.2)

/-- The `for var in independent_vars` correlation loop of `run_regression`:
variables absent from the dataframe are skipped; an absent dependent
variable raises `KeyError`, which the enclosing handler turns into the
error payload. -/
def regressionCorrelations (df : NumDataFrame) (dep : String) :
    List String → Except String (List (String × PFloat))
  | [] => .ok []
  | v :: vs =>
    match df.col? v with
    | none => regressionCorrelations df dep vs
    | some xs =>
      match df.col? dep with
      | none => .error ("KeyError: " ++ dep)
      | some ys =>
        match regressionCorrelations df dep vs with
        | .ok rest => .ok ((v, surfacedCorr xs ys) :: rest)
        | .error e => .error e

/-! ## JSON documents -/

/-- JSON values as serialized by `json.dump`; numbers carry the exact
`PFloat` representation. -/
inductive J where
  | null : J
  | jbool : Bool → J
  | num : PFloat → J
  | str : String → J
  | arr : List J → J
  | obj : List (String × J) → J

/-- Key lookup in a JSON object (first occurrence); `none` on non-objects. -/
def J.lookup : J → String → Option J
  | .obj fields, k => (fields.find? (·.1 == k)).map (·.2)
  | _, _ => none

/-- Integer shorthand for JSON numbers. -/
def J.numQ (q : ℚ) : J := J.num (.ratio q 1)

/-- The `correlations` member of the `run_regression` JSON output. -/
def regressionCorrelationsJson (df : NumDataFrame) (dep : String) (ivs : List String) :
    Except String J :=
  match regressionCorrelations df dep ivs with
  | .ok l => .ok (J.obj (l.map (fun p => (p.1, J.num p.2))))
  | .error e => .error e

/-! ## Script exit codes (claim C2) -/

/-- The CLI entry points of the repository whose exit status is a
function of run success alone (the FastAPI server is a long running
process, not a CLI script; visualization_generator.py's exit status
depends on which branch of its `__main__` block runs, and is modelled
separately by `VizGenRun` / `vizGenExitCode`). -/
inductive Script where
  | data_analyzer
  | outlier_detector
  | missing_data_analyzer
  | normality_tester
  | advanced_anova
  | trial_analyzer
  | pandas_analyzer
  | ml_analysis
  | transformation_service
  | visualization_service
deriving DecidableEq, Repr

/-- Process exit code of each script as a function of whether the run
succeeded, read off from each `main` / `__main__` block:

* data_analyzer.py, outlier_detector.py, missing_data_analyzer.py,
  normality_tester.py, advanced_anova.py end their exception handler with
  `sys.exit(1)` and fall off `main` (exit 0) on success;
* pandas-analyzer prints the error JSON then `sys.exit(1)`;
* trial_analyzer.py catches inside `analyze_trial_data`, writes the error
  file and returns, so the interpreter exits 0;
* ml-analysis.py prints the error JSON in its handler with no
  `sys.exit`, exiting 0;
* pandas-transformation-service.py and visualization-service.py print the
  error JSON returned by their `*_from_json` wrapper and exit 0. -/
def exitCode : Script → Bool → Nat
  | .data_analyzer, ok => if ok then 0 else 1
  | .outlier_detector, ok => if ok then 0 else 1
  | .missing_data_analyzer, ok => if ok then 0 else 1
  | .normality_tester, ok => if ok then 0 else 1
  | .advanced_anova, ok => if ok then 0 else 1
  | .pandas_analyzer, ok => if ok then 0 else 1
  | .trial_analyzer, _ => 0
  | .ml_analysis, _ => 0
  | .transformation_service, _ => 0
  | .visualization_service, _ => 0

/-- The results dict built by `create_advanced_visualization` in
visualization_generator.py (lines 34-40): it always carries its five
keys; a chart-creation failure caught at lines 108-110 returns the same
dict with `success` False and the message appended to `insights`. -/
structure VizGenResult where
  success : Bool
  chart_path : String
  insights : List String
  processedData : List Record
  statistics : List (String × PFloat)
deriving Repr

/-- Python truthiness of the results dict: a dict is falsy only when
empty, and this one always holds its five keys, so it is always truthy. -/
def vizGenResultTruthy (_ : VizGenResult) : Bool := true

/-- The three ways one visualization_generator.py invocation can end:
an exception while loading the config (lines 268-276), the chartConfig
branch (lines 258-262), or the legacy branch (lines 263-266), whose
`create_visualization` is `return create_advanced_visualization(config)`
at line 176 — the code after that `return` is dead — so it yields the
results dict, never a boolean. -/
inductive VizGenRun where
  | configError : VizGenRun
  | advanced : VizGenResult → VizGenRun
  | legacy : VizGenResult → VizGenRun

/-- Exit code of the `__main__` block of visualization_generator.py: a
config failure exits 1; the chartConfig branch exits
`0 if result["success"] else 1`; the legacy branch exits
`0 if success else 1` where `success` is the returned dict — always
truthy, so the legacy branch always exits 0, also when chart creation
failed. -/
def vizGenExitCode : VizGenRun → Nat
  | .configError => 1
  | .advanced r => if r.success then 0 else 1
  | .legacy r => if vizGenResultTruthy r then 0 else 1

/-- Does the visualization_generator.py path print a JSON document?
`json.dumps` runs in the chartConfig branch (line 261) and in the
config-error handler (line 275) only; the legacy branch discards the
result dict and prints no JSON at all. -/
def vizGenPrintsJson : VizGenRun → Bool
  | .configError => true
  | .advanced _ => true
  | .legacy _ => false

/-! ## Failure JSON payloads (claim C3)

Each definition is the error document written by the outermost exception
handler of one script, with `msg` standing for `str(e)`. -/

/-- Error payload of data_analyzer.py `main`. -/
def data_analyzer_error (msg : String) : J :=
  J.obj [("success", J.jbool false), ("error", J.str msg), ("data", J.null),
         ("visualizations", J.arr [])]

/-- Error payload of outlier_detector.py `main`. -/
def outlier_detector_error (msg : String) : J :=
  J.obj [("error", J.str msg), ("outliers", J.arr []), ("summary", J.obj [])]

/-- Error payload of missing_data_analyzer.py `main`. -/
def missing_data_analyzer_error (msg : String) : J :=
  J.obj [("error", J.str msg), ("missing_info", J.obj []), ("patterns", J.obj []),
         ("recommendations", J.arr [])]

/-- Error payload of normality_tester.py `main`. -/
def normality_tester_error (msg : String) : J :=
  J.obj [("error", J.str msg), ("tests", J.obj [])]

/-- Error payload of advanced_anova.py `main`. -/
def advanced_anova_error (msg : String) : J :=
  J.obj [("error", J.str msg), ("analysis_type", J.str "ANOVA"), ("success", J.jbool false)]

/-- Error payload of the configuration-loading handler of
visualization_generator.py: the message lands inside `insights`; there is
no `error` key. -/
def visualization_generator_error (msg : String) : J :=
  J.obj [("success", J.jbool false),
         ("insights", J.arr [J.str ("Error loading configuration: " ++ msg)]),
         ("processedData", J.arr []), ("statistics", J.obj [])]

/-- Error payload of trial_analyzer.py `analyze_trial_data`: the error
string is nested inside `data`, not at top level. -/
def trial_analyzer_error (msg : String) : J :=
  J.obj [("data", J.obj [("error", J.str msg)]), ("visualizations", J.arr [])]

/-- Error payload of the pandas-analyzer `main`. -/
def pandas_analyzer_error (msg : String) : J :=
  J.obj [("error", J.str msg)]

/-- Error payload of ml-analysis.py `main`; `analysisType` carries the
requested analysis type argument. -/
def ml_analysis_error (analysisType msg : String) : J :=
  J.obj [("error", J.str msg), ("analysisType", J.str analysisType),
         ("results", J.obj [("summary", J.str ("Analysis failed: " ++ msg)),
                            ("insights", J.arr []), ("recommendations", J.arr [])]),
         ("dataQuality", J.obj [])]

/-- Error payload of `transform_data_from_json` in
pandas-transformation-service.py. -/
def transformation_service_error (msg : String) : J :=
  J.obj [("success", J.jbool false), ("error", J.str msg), ("data", J.arr []),
         ("original_count", J.numQ 0), ("transformed_count", J.numQ 0)]

/-- Error payload of `create_visualization_from_json` in
visualization-service.py. -/
def visualization_service_error (msg : String) : J :=
  J.obj [("success", J.jbool false), ("error", J.str msg)]

/-- Does the document hold a top-level `error` key with a string value? -/
def hasErrorString (j : J) : Bool :=
  match j.lookup "error" with
  | some (.str _) => true
  | _ => false

/-! ## Schema inference (claim C5) -/

/-- Embedding of `DataAnalyzer._generate_schema` (pandas-analyzer) on one
column: dispatch on the rendered dtype string by leading substring, with
`text` as the final fallback. -/
def generate_schema_type (dtype : String) : String :=
  if pyStartsWith dtype "int" then "integer"
  else if pyStartsWith dtype "float" then "float"
  else if pyStartsWith dtype "datetime" then "datetime"
  else if pyStartsWith dtype "bool" then "boolean"
  else "text"

/-- The pandas dtypes a loaded column can carry, as far as the schema
code discriminates them. -/
inductive PdDtype where
  | int64
  | int32
  | float64
  | float32
  | datetime64
  | boolDt
  | objectDt
deriving DecidableEq, Repr

/-- Model of `pd.api.types.is_integer_dtype`; a boolean dtype is not an
integer dtype. -/
def is_integer_dtype : PdDtype → Bool
  | .int64 => true
  | .int32 => true
  | _ => false

/-- Model of `pd.api.types.is_float_dtype`. -/
def is_float_dtype : PdDtype → Bool
  | .float64 => true
  | .float32 => true
  | _ => false

/-- Model of `pd.api.types.is_datetime64_any_dtype`. -/
def is_datetime64_any_dtype : PdDtype → Bool
  | .datetime64 => true
  | _ => false

/-- Embedding of the schema generation loop of `upload_project` in
server/fastapi-backend.py: note the fallback is the name `string`, and a
boolean dtype falls through every branch into it. -/
def upload_schema_type (d : PdDtype) : String :=
  if is_integer_dtype d then "integer"
  else if is_float_dtype d then "float"
  else if is_datetime64_any_dtype d then "datetime"
  else "string"

/-! ## Bearer-token authentication (claim C6) -/

/-- The value stored in `tokens_db` for a token: the authenticated user. -/
structure UserInfo where
  user_id : String
deriving DecidableEq, Repr

/-- A project record, reduced to the fields the endpoints inspect. -/
structure Project where
  id : String
  owner_id : String
deriving DecidableEq, Repr

/-- Lookup in the in-memory `tokens_db` dict. -/
def lookupToken (db : List (String × UserInfo)) (t : String) : Option UserInfo :=
  (db.find? (·.1 == t)).map (·.2)

/-- Lookup in the in-memory `projects_db` dict. -/
def projectLookup (db : List (String × Project)) (pid : String) : Option Project :=
  (db.find? (·.1 == pid)).map (·.2)

/-- Embedding of `get_current_user`: 401 when the header is absent, falsy,
or lacks the `Bearer ` scheme, or when the token obtained by deleting
every `"Bearer "` occurrence (Python `str.replace`) is unknown. -/
def get_current_user (tokens_db : List (String × UserInfo)) :
    Option String → Except Nat UserInfo
  | none => .error 401
  | some auth =>
    if auth = "" ∨ ¬ pyStartsWith auth "Bearer " then .error 401
    else
      match lookupToken tokens_db (pyReplace auth "Bearer " "") with
      | none => .error 401
      | some u => .ok u

/-- Embedding of the `/projects` endpoint: the caller's projects, in
store order. -/
def list_projects (tokens_db : List (String × UserInfo))
    (projects_db : List (String × Project)) (authorization : Option String) :
    Except Nat (List Project) :=
  match get_current_user tokens_db authorization with
  | .error c => .error c
  | .ok u => .ok ((projects_db.map (·.2)).filter (fun p => p.owner_id == u.user_id))

/-- Embedding of the `/projects/{project_id}` endpoint: 404 both when the
project is absent and when it belongs to another user. -/
def get_project (tokens_db : List (String × UserInfo))
    (projects_db : List (String × Project)) (project_id : String)
    (authorization : Option String) : Except Nat Project :=
  match get_current_user tokens_db authorization with
  | .error c => .error c
  | .ok u =>
    match projectLookup projects_db project_id with
    | none => .error 404
    | some p => if p.owner_id ≠ u.user_id then .error 404 else .ok p

/-! ## Imputation recommendations (claim C7) -/

/-- The slice of a `missing_info[column]` entry that
`generate_imputation_recommendations` reads. -/
structure MissingInfo where
  missing_percentage : ℚ
  data_type : String
deriving DecidableEq, Repr

/-- Python `"float" in dt or "int" in dt` numeric-dtype test. -/
def isNumericDtype (dt : String) : Bool :=
  strContains dt "float" || strContains dt "int"

/-- Does pandas `Series.skew()` come out NaN?  It does for fewer than
three observations or a zero second moment. -/
def skewIsNaN (xs : List ℚ) : Bool :=
  decide (xs.length < 3) || decide (sqDevSum xs = 0)

/-- Exact test for `abs(skewness) > 1` with the pandas adjusted
Fisher-Pearson coefficient G1 = (sqrt (n (n-1)) / (n-2)) · m3 / m2^(3/2):
squaring gives G1² = n² (n-1) S3² / ((n-2)² S2³) with S_k the deviation
sums, so the comparison is exact over ℚ.  On NaN `abs(nan) > 1` is False
in Python. -/
def skewAbsGt1 (xs : List ℚ) : Bool :=
  if skewIsNaN xs then false
  else
    decide ((xs.length : ℚ) ^ 2 * ((xs.length : ℚ) - 1) * cubeDevSum xs ^ 2 >
            ((xs.length : ℚ) - 2) ^ 2 * sqDevSum xs ^ 3)

/-- One emitted recommendation entry. -/
structure ColumnRec where
  column : String
  missing_percentage : ℚ
  recommendations : List String
deriving DecidableEq, Repr

/-- Embedding of the per-column body of
`generate_imputation_recommendations`: skip columns with zero missing
percentage, pick the primary recommendation by threshold, add the
dtype-dependent secondary line, then for numeric dtypes with data left
append the skewness advice (`colData` is `df[column].dropna()`; the bare
`except: pass` around the skew computation never fires in the rational
model). -/
def genColumnRec (column : String) (colData : List ℚ) (info : MissingInfo) :
    Option ColumnRec :=
  if info.missing_percentage = 0 then none
  else
    let isNum := isNumericDtype info.data_type
    let base : List String :=
      if info.missing_percentage > 50 then
        ["Consider removing this column due to high missing percentage",
         "If retaining, use advanced imputation methods"]
      else if info.missing_percentage > 20 then
        "High missing percentage - use sophisticated imputation" ::
        (if isNum then ["Consider KNN imputation or iterative imputation"]
         else ["Consider mode imputation or create \x27missing\x27 category"])
      else if info.missing_percentage > 5 then
        "Moderate missing percentage - standard imputation appropriate" ::
        (if isNum then ["Mean/median imputation or KNN imputation"]
         else ["Mode imputation or forward/backward fill"])
      else
        "Low missing percentage - simple imputation sufficient" ::
        (if isNum then ["Mean/median imputation"] else ["Mode imputation"])
    let recs :=
      if isNum ∧ colData.length > 0 then
        base ++ [if skewAbsGt1 colData then "Data is skewed - prefer median over mean"
                 else "Data appears normal - mean imputation suitable"]
      else base
    some { column := column, missing_percentage := info.missing_percentage,
           recommendations := recs }

/-- Embedding of `generate_imputation_recommendations` over the whole
`missing_info` dict; `dfCols` supplies `df[column].dropna()` for the skew
step (a column absent from the dataframe raises inside the `try` and is
silently skipped, matching the empty default). -/
def generate_imputation_recommendations (dfCols : List (String × List ℚ))
    (missing_info : List (String × MissingInfo)) : List ColumnRec :=
  missing_info.filterMap (fun ci =>
    genColumnRec ci.1 (((dfCols.find? (·.1 == ci.1)).map (·.2)).getD []) ci.2)

/-- Missing percentage of a column as computed by
`analyze_missing_patterns`: null count over row count, times 100. -/
def missingPercentage (col : List (Option ℚ)) : ℚ :=
  ((col.countP Option.isNone : ℕ) : ℚ) / ((col.length : ℕ) : ℚ) * 100

/-! ## Shapiro-Wilk wrapper (claim C10) -/

/-- The success result dict of `test_normality_shapiro`. -/
structure ShapiroResult where
  test_name : String
  statistic : ℚ
  p_value : ℚ
  is_normal : Bool
  interpretation : String
  sample_size : Nat
deriving DecidableEq, Repr

/-- The sample actually tested: the 5000-element random subsample
(`np.random.choice(data, 5000, replace=False)`, entering the model as the
parameter `choiceLib`) when the input is longer than 5000, the input
itself otherwise. -/
def shapiroSample (choiceLib : List ℚ → Nat → List ℚ) (data : List ℚ) : List ℚ :=
  if data.length > 5000 then choiceLib data 5000 else data

/-- Embedding of `test_normality_shapiro`; the scipy `shapiro` routine is
out of scope and enters as the parameter `shapiroLib`, returning the pair
(statistic, p_value).  Fewer than three observations yield `None`. -/
def test_normality_shapiro (shapiroLib : List ℚ → ℚ × ℚ)
    (choiceLib : List ℚ → Nat → List ℚ) (data : List ℚ) : Option ShapiroResult :=
  if data.length < 3 then none
  else
    let sample := shapiroSample choiceLib data
    let st := shapiroLib sample
    some { test_name := "Shapiro-Wilk",
           statistic := st.1,
           p_value := st.2,
           is_normal := decide (st.2 > 1 / 20),
           interpretation := if st.2 > 1 / 20 then "Normal" else "Not Normal",
           sample_size := sample.length }

end ChimariData

deriving instance DecidableEq for Except

namespace ChimariData

/-! ## Theorems -/

/-- Sum over a cons cell. -/
theorem qsum_cons (a : ℚ) (as : List ℚ) : qsum (a :: as) = a + qsum as := rfl

/-- Sum of a constant list. -/
theorem qsum_const (xs : List ℚ) (c : ℚ) (h : ∀ x ∈ xs, x = c) :
    qsum xs = (xs.length : ℚ) * c := by
  induction xs with
  | nil => simp [qsum]
  | cons a as ih =>
    rw [qsum_cons, h a (List.mem_cons_self a as),
        ih (fun x hx => h x (List.mem_cons_of_mem a hx)), List.length_cons]
    push_cast
    ring

/-- Mean of a nonempty constant list. -/
theorem qmean_const (xs : List ℚ) (c : ℚ) (hne : xs ≠ []) (h : ∀ x ∈ xs, x = c) :
    qmean xs = c := by
  have hlen : xs.length ≠ 0 := by
    simpa using hne
  have hn : ((xs.length : ℕ) : ℚ) ≠ 0 := Nat.cast_ne_zero.mpr hlen
  rw [qmean, qsum_const xs c h, mul_comm, mul_div_cancel_right₀ _ hn]

/-- A constant column has zero squared-deviation sum. -/
theorem sqDevSum_const (xs : List ℚ) (c : ℚ) (h : ∀ x ∈ xs, x = c) :
    sqDevSum xs = 0 := by
  rcases eq_or_ne xs [] with rfl | hne
  · simp [sqDevSum, qsum]
  · have hz : ∀ y ∈ xs.map (fun x => (x - qmean xs) ^ 2), y = 0 := by
      intro y hy
      rcases List.mem_map.mp hy with ⟨x, hx, rfl⟩
      rw [h x hx, qmean_const xs c hne h]
      ring
    rw [sqDevSum, qsum_const _ 0 hz, mul_zero]

/-- C1 (amended): for a constant regression column the Pearson
correlation computed by `run_regression` is NaN, and line 148 of
data_analyzer.py surfaces it as the float `0.0` (not as null). -/
theorem constant_column_correlation (xs ys : List ℚ) (c : ℚ) (h : ∀ x ∈ xs, x = c) :
    (seriesCorr xs ys).isnan = true ∧ surfacedCorr xs ys = .ratio 0 1 := by
  have hnan : seriesCorr xs ys = .nan := by
    unfold seriesCorr
    rcases Nat.lt_or_ge xs.length 2 with hl | hl
    · rw [if_pos (Or.inl hl)]
    · rw [if_pos (Or.inr (Or.inl (sqDevSum_const xs c h)))]
  refine ⟨by rw [hnan]; rfl, ?_⟩
  unfold surfacedCorr
  rw [hnan]
  rfl

/-- Witness for `constant_column_correlation` at the constant column [5, 5]. -/
theorem constant_column_correlation_witness :
    (seriesCorr [5, 5] [1, 2]).isnan = true ∧ surfacedCorr [5, 5] [1, 2] = .ratio 0 1 :=
  constant_column_correlation [5, 5] [1, 2] 5 (by decide)

/-- C1 counterexample: on the dataset with constant column x = [3, 3, 3]
and dependent variable y = [1, 2, 3], `run_regression` puts the JSON
number 0.0 — not null — under "x" in `correlations`. -/
theorem constant_column_surfaced_zero_not_null :
    regressionCorrelationsJson ⟨[("x", [3, 3, 3]), ("y", [1, 2, 3])]⟩ "y" ["x"] =
      .ok (J.obj [("x", J.num (.ratio 0 1))]) ∧
    (J.obj [("x", J.num (.ratio 0 1))]).lookup "x" ≠ some J.null := by
  constructor
  · norm_num [regressionCorrelationsJson, regressionCorrelations, NumDataFrame.col?,
      surfacedCorr, seriesCorr, sqDevSum, qmean, qsum, PFloat.isnan, List.find?]
    rfl
  · intro hc
    exact J.noConfusion (Option.some.inj hc)

/-- C9: the degenerate-configuration behavior of `_apply_filter`: a falsy
or missing field, operator or value, a field that is not a column, or an
unknown operator each leave the dataframe unchanged; in particular
filtering for equality with the value 0 never removes a row. -/
theorem apply_filter_degenerate_configs (df : DataFrame) (config : TConfig) :
    ((truthyOpt config.field = false ∨ truthyOpt config.operator = false ∨
        truthyOpt config.value = false) → applyFilter df config = df)
    ∧ (∀ f : String, config.field = some (.vstr f) → f ∉ df.cols →
        applyFilter df config = df)
    ∧ (∀ f op : String, config.field = some (.vstr f) →
        config.operator = some (.vstr op) →
        op ∉ (["equals", "not_equals", "contains", "greater_than", "less_than"] :
          List String) →
        applyFilter df config = df)
    ∧ (∀ f : String, applyFilter df { config with field := some (.vstr f), operator := some (.vstr "equals"), value := some (.vnum 0) } = df) := by
  refine ⟨?_, ?_, ?_, ?_⟩
  · intro h
    have hb : (truthyOpt config.field && truthyOpt config.operator &&
        truthyOpt config.value) = false := by
      rcases h with h | h | h <;> simp [h]
    simp [applyFilter, hb]
  · intro f hf hmem
    by_cases hb : (truthyOpt config.field && truthyOpt config.operator &&
        truthyOpt config.value) = true
    · simp [applyFilter, hb, hf, hmem]
    · rw [Bool.not_eq_true] at hb
      simp [applyFilter, hb]
  · intro f op hf hop hops
    simp only [List.mem_cons, List.not_mem_nil, or_false, not_or] at hops
    obtain ⟨h1, h2, h3, h4, h5⟩ := hops
    by_cases hb : (truthyOpt config.field && truthyOpt config.operator &&
        truthyOpt config.value) = true
    · by_cases hmem : f ∈ df.cols
      · simp [applyFilter, hb, hf, hop, hmem, applyFilterOp, h1, h2, h3, h4, h5]
      · simp [applyFilter, hb, hf, hmem]
    · rw [Bool.not_eq_true] at hb
      simp [applyFilter, hb]
  · intro f
    simp [applyFilter, truthyOpt, PVal.truthy]

/-- Witness for `apply_filter_degenerate_configs`: a filter on an absent
column leaves a concrete two-row dataframe unchanged. -/
theorem apply_filter_degenerate_configs_witness :
    applyFilter ⟨["a"], [[.vnum 1], [.vnum 0]]⟩
      { field := some (.vstr "b"), operator := some (.vstr "equals"),
        value := some (.vnum 5) } =
      ⟨["a"], [[.vnum 1], [.vnum 0]]⟩ :=
  (apply_filter_degenerate_configs _ _).2.1 "b" rfl (by decide)

/-- C4: `apply_transformations` runs its transformation list strictly in
order, each step consuming the dataframe produced by the previous one,
and a transformation whose type is not one of the seven known names
leaves the dataframe unchanged and lets processing continue. -/
theorem apply_transformations_sequential :
    (∀ (toDT : PVal → PVal) (df : DataFrame) (t : Transformation)
        (ts : List Transformation),
      applyTransformList toDT df (t :: ts) =
        (applyStep toDT df t).bind (fun d => applyTransformList toDT d ts))
    ∧ (∀ (toDT : PVal → PVal) (df : DataFrame) (t : Transformation),
      t.ttype ∉ ([some "filter", some "select", some "aggregate", some "sort",
                  some "rename", some "convert", some "clean"] : List (Option String)) →
      applyStep toDT df t = .ok df ∧
        ∀ ts, applyTransformList toDT df (t :: ts) = applyTransformList toDT df ts) := by
  constructor
  · intro toDT df t ts
    cases h : applyStep toDT df t <;> simp [applyTransformList, h, Except.bind]
  · intro toDT df t h
    simp only [List.mem_cons, List.not_mem_nil, or_false, not_or] at h
    obtain ⟨h1, h2, h3, h4, h5, h6, h7⟩ := h
    have hstep : applyStep toDT df t = .ok df := by
      simp [applyStep, h1, h2, h3, h4, h5, h6, h7]
    exact ⟨hstep, fun ts => by simp [applyTransformList, hstep]⟩

/-- Witness for `apply_transformations_sequential`: the unknown type
"explode" is skipped on a concrete dataframe. -/
theorem apply_transformations_sequential_witness :
    applyStep (fun v => v) ⟨["a"], [[.vnum 1]]⟩ { ttype := some "explode" } =
      .ok ⟨["a"], [[.vnum 1]]⟩ ∧
    applyTransformList (fun v => v) ⟨["a"], [[.vnum 1]]⟩ [{ ttype := some "explode" }] =
      applyTransformList (fun v => v) ⟨["a"], [[.vnum 1]]⟩ [] :=
  ⟨(apply_transformations_sequential.2 _ _ _ (by decide)).1,
   (apply_transformations_sequential.2 _ _ _ (by decide)).2 []⟩

/-- C8: whenever the transformation loop raises, `apply_transformations`
returns the failure payload: success false, the original input row list
unchanged as `data`, `original_count` the input length and
`transformed_count` 0. -/
theorem apply_transformations_error_payload (toDT : PVal → PVal) (data : List Record)
    (ts : List Transformation) (e : String)
    (h : applyTransformList toDT (dfOfRecords data) ts = .error e) :
    apply_transformations toDT data ts =
      { success := false, error := some e, data := data,
        original_count := data.length, transformed_count := 0 } := by
  unfold apply_transformations
  rw [h]

/-- Witness for `apply_transformations_error_payload`: sorting a column
that mixes a number with a string raises, and the payload carries the
original two records. -/
theorem apply_transformations_error_payload_witness :
    apply_transformations (fun v => v) [[("a", .vnum 1)], [("a", .vstr "x")]]
      [{ ttype := some "sort", config := { fields := ["a"] } }] =
      { success := false, error := some "TypeError: unorderable types in sort_values",
        data := [[("a", .vnum 1)], [("a", .vstr "x")]],
        original_count := 2, transformed_count := 0 } :=
  apply_transformations_error_payload _ _ _ _ (by decide)

/-- C2 counterexample: ml-analysis.py prints its error JSON and falls off
`main` without `sys.exit`, so a failing run still exits with status 0,
not 1; likewise the legacy branch of visualization_generator.py exits 0
after a caught chart-creation failure, because the truthy results dict
stands where a success flag was expected. -/
theorem ml_analysis_exit_zero_on_failure :
    (exitCode Script.ml_analysis false = 0 ∧ exitCode Script.ml_analysis false ≠ 1) ∧
    vizGenExitCode (VizGenRun.legacy
      { success := false, chart_path := "chart.png",
        insights := ["Error creating visualization: boom"],
        processedData := [], statistics := [] }) = 0 :=
  ⟨by decide, rfl⟩

/-- C2 (amended): the scripts whose handlers end in `sys.exit(1)` exit 0
on success and 1 on failure; trial_analyzer.py, ml-analysis.py,
pandas-transformation-service.py and visualization-service.py emit their
error JSON but always exit 0; visualization_generator.py exits 1 on a
config-load failure and, in the chartConfig branch, when the result
carries success False, while its legacy branch always exits 0 — even
when chart creation failed. -/
theorem exit_codes_amended :
    (∀ s ∈ [Script.data_analyzer, Script.outlier_detector, Script.missing_data_analyzer,
            Script.normality_tester, Script.advanced_anova, Script.pandas_analyzer],
       ∀ ok, exitCode s ok = if ok then 0 else 1)
    ∧ (∀ s ∈ [Script.trial_analyzer, Script.ml_analysis, Script.transformation_service,
              Script.visualization_service],
       ∀ ok, exitCode s ok = 0)
    ∧ vizGenExitCode VizGenRun.configError = 1
    ∧ (∀ r, vizGenExitCode (VizGenRun.advanced r) = if r.success then 0 else 1)
    ∧ (∀ r, vizGenExitCode (VizGenRun.legacy r) = 0) := by
  refine ⟨?_, ?_, rfl, fun r => rfl, fun r => rfl⟩
  · intro s hs ok
    fin_cases hs <;> cases ok <;> rfl
  · intro s hs ok
    fin_cases hs <;> rfl

/-- Witness for `exit_codes_amended` at two concrete scripts. -/
theorem exit_codes_amended_witness :
    exitCode Script.outlier_detector false = 1 ∧
    exitCode Script.trial_analyzer false = 0 :=
  ⟨exit_codes_amended.1 Script.outlier_detector (by decide) false,
   exit_codes_amended.2.1 Script.trial_analyzer (by decide) false⟩

/-- C3 counterexample: the configuration-loading failure payload of
visualization_generator.py has no `error` key at all — the message is
hidden inside `insights`. -/
theorem visualization_generator_error_lacks_error_key :
    hasErrorString (visualization_generator_error "boom") = false ∧
    (visualization_generator_error "boom").lookup "error" = none := by
  exact ⟨rfl, rfl⟩

/-- C3 (amended): when a script writes a failure JSON document, every
script except trial_analyzer.py and visualization_generator.py puts a
top-level `error` key holding the message string; trial_analyzer.py
nests the `error` string inside its `data` member;
visualization_generator.py's config-load payload has no `error` key, and
its legacy branch writes no JSON document at all on a caught
chart-creation failure (only the chartConfig branch and the config-error
handler print JSON). -/
theorem error_payload_error_keys (msg analysisType : String) :
    (data_analyzer_error msg).lookup "error" = some (.str msg)
    ∧ (outlier_detector_error msg).lookup "error" = some (.str msg)
    ∧ (missing_data_analyzer_error msg).lookup "error" = some (.str msg)
    ∧ (normality_tester_error msg).lookup "error" = some (.str msg)
    ∧ (advanced_anova_error msg).lookup "error" = some (.str msg)
    ∧ (pandas_analyzer_error msg).lookup "error" = some (.str msg)
    ∧ (ml_analysis_error analysisType msg).lookup "error" = some (.str msg)
    ∧ (transformation_service_error msg).lookup "error" = some (.str msg)
    ∧ (visualization_service_error msg).lookup "error" = some (.str msg)
    ∧ (trial_analyzer_error msg).lookup "error" = none
    ∧ ((trial_analyzer_error msg).lookup "data").bind (fun d => d.lookup "error") =
        some (.str msg)
    ∧ (visualization_generator_error msg).lookup "error" = none
    ∧ (∀ r, vizGenPrintsJson (VizGenRun.legacy r) = false)
    ∧ (∀ r, vizGenPrintsJson (VizGenRun.advanced r) = true)
    ∧ vizGenPrintsJson VizGenRun.configError = true := by
  exact ⟨rfl, rfl, rfl, rfl, rfl, rfl, rfl, rfl, rfl, rfl, rfl, rfl,
    fun r => rfl, fun r => rfl, rfl⟩

/-- C5 counterexample: the schema generated by `upload_project` in
server/fastapi-backend.py maps a boolean or object dtype to the name
"string", which is not one of the five names the claim allows. -/
theorem upload_schema_string_not_in_five :
    upload_schema_type PdDtype.boolDt = "string" ∧
    upload_schema_type PdDtype.objectDt = "string" ∧
    "string" ∉ (["integer", "float", "datetime", "boolean", "text"] : List String) := by
  refine ⟨rfl, rfl, by decide⟩

/-- C5 (amended): `DataAnalyzer._generate_schema` assigns every column
exactly one of the five names integer, float, datetime, boolean, text,
with text as the fallback; the FastAPI `upload_project` schema instead
draws from integer, float, datetime, string, with string as the
fallback. -/
theorem schema_inference_amended :
    (∀ dt : String, generate_schema_type dt ∈
        (["integer", "float", "datetime", "boolean", "text"] : List String))
    ∧ (∀ dt : String, pyStartsWith dt "int" = false → pyStartsWith dt "float" = false →
        pyStartsWith dt "datetime" = false → pyStartsWith dt "bool" = false →
        generate_schema_type dt = "text")
    ∧ (∀ d : PdDtype, upload_schema_type d ∈
        (["integer", "float", "datetime", "string"] : List String)) := by
  refine ⟨?_, ?_, ?_⟩
  · intro dt
    unfold generate_schema_type
    split_ifs <;> simp
  · intro dt h1 h2 h3 h4
    simp [generate_schema_type, h1, h2, h3, h4]
  · intro d
    cases d <;> simp [upload_schema_type, is_integer_dtype, is_float_dtype,
      is_datetime64_any_dtype]

/-- Witness for `schema_inference_amended`: the object dtype falls back to "text". -/
theorem schema_inference_amended_witness :
    generate_schema_type "object" = "text" :=
  schema_inference_amended.2.1 "object" (by decide) (by decide) (by decide) (by decide)

/-- A header carrying the Bearer scheme never trips the falsiness guard of
`get_current_user`. -/
theorem auth_guard_passes {s : String} (hs : pyStartsWith s "Bearer " = true) :
    ¬ (s = "" ∨ ¬ pyStartsWith s "Bearer " = true) := by
  push_neg
  refine ⟨?_, hs⟩
  intro he
  rw [he] at hs
  exact absurd hs (by decide)

/-- C6: the bearer-token contract of server/fastapi-backend.py — a
missing header, a header without the Bearer scheme, and an unknown token
each produce 401; a known token makes `/projects` return exactly the
caller's projects, and `/projects/{id}` yields 404 both for an absent
project and for one owned by another user, returning the project only to
its owner. -/
theorem bearer_auth_contract (tokens_db : List (String × UserInfo))
    (projects_db : List (String × Project)) :
    (get_current_user tokens_db none = .error 401)
    ∧ (∀ s : String, pyStartsWith s "Bearer " = false →
        get_current_user tokens_db (some s) = .error 401)
    ∧ (∀ s : String, lookupToken tokens_db (pyReplace s "Bearer " "") = none →
        get_current_user tokens_db (some s) = .error 401)
    ∧ (∀ (s : String) (u : UserInfo), pyStartsWith s "Bearer " = true →
        lookupToken tokens_db (pyReplace s "Bearer " "") = some u →
        list_projects tokens_db projects_db (some s) =
          .ok ((projects_db.map (·.2)).filter (fun p => p.owner_id == u.user_id)))
    ∧ (∀ (s : String) (u : UserInfo) (pid : String), pyStartsWith s "Bearer " = true →
        lookupToken tokens_db (pyReplace s "Bearer " "") = some u →
        (projectLookup projects_db pid = none ∨
          ∃ p, projectLookup projects_db pid = some p ∧ p.owner_id ≠ u.user_id) →
        get_project tokens_db projects_db pid (some s) = .error 404)
    ∧ (∀ (s : String) (u : UserInfo) (pid : String) (p : Project),
        pyStartsWith s "Bearer " = true →
        lookupToken tokens_db (pyReplace s "Bearer " "") = some u →
        projectLookup projects_db pid = some p → p.owner_id = u.user_id →
        get_project tokens_db projects_db pid (some s) = .ok p) := by
  refine ⟨rfl, ?_, ?_, ?_, ?_, ?_⟩
  · intro s hs
    simp only [get_current_user]
    rw [if_pos (Or.inr (by simp [hs]))]
  · intro s hlk
    simp only [get_current_user]
    by_cases hcond : s = "" ∨ ¬ pyStartsWith s "Bearer " = true
    · rw [if_pos hcond]
    · rw [if_neg hcond, hlk]
  · intro s u hs hlk
    unfold list_projects
    simp only [get_current_user]
    rw [if_neg (auth_guard_passes hs), hlk]
  · intro s u pid hs hlk hproj
    unfold get_project
    simp only [get_current_user]
    rw [if_neg (auth_guard_passes hs), hlk]
    rcases hproj with hnone | ⟨p, hp, hpo⟩
    · rw [hnone]
    · rw [hp]
      simp [hpo]
  · intro s u pid p hs hlk hp hpo
    unfold get_project
    simp only [get_current_user]
    rw [if_neg (auth_guard_passes hs), hlk, hp]
    simp [hpo]

/-- Witness for `bearer_auth_contract` on a concrete two-project store. -/
theorem bearer_auth_contract_witness :
    get_current_user [("tok1", ⟨"alice"⟩)] (some "Basic x") = .error 401 ∧
    get_current_user [("tok1", ⟨"alice"⟩)] (some "Bearer bad") = .error 401 ∧
    list_projects [("tok1", ⟨"alice"⟩)]
        [("p1", ⟨"p1", "alice"⟩), ("p2", ⟨"p2", "bob"⟩)] (some "Bearer tok1") =
      .ok [⟨"p1", "alice"⟩] ∧
    get_project [("tok1", ⟨"alice"⟩)] [("p2", ⟨"p2", "bob"⟩)] "p2" (some "Bearer tok1") =
      .error 404 ∧
    get_project [("tok1", ⟨"alice"⟩)] [("p2", ⟨"p2", "bob"⟩)] "missing" (some "Bearer tok1") =
      .error 404 :=
  ⟨(bearer_auth_contract [("tok1", ⟨"alice"⟩)] []).2.1 "Basic x" (by decide),
   (bearer_auth_contract [("tok1", ⟨"alice"⟩)] []).2.2.1 "Bearer bad" (by decide),
   (bearer_auth_contract [("tok1", ⟨"alice"⟩)]
       [("p1", ⟨"p1", "alice"⟩), ("p2", ⟨"p2", "bob"⟩)]).2.2.2.1 "Bearer tok1" ⟨"alice"⟩
     (by decide) (by decide),
   (bearer_auth_contract [("tok1", ⟨"alice"⟩)] [("p2", ⟨"p2", "bob"⟩)]).2.2.2.2.1
     "Bearer tok1" ⟨"alice"⟩ "p2" (by decide) (by decide)
     (Or.inr ⟨⟨"p2", "bob"⟩, by decide, by decide⟩),
   (bearer_auth_contract [("tok1", ⟨"alice"⟩)] [("p2", ⟨"p2", "bob"⟩)]).2.2.2.2.1
     "Bearer tok1" ⟨"alice"⟩ "missing" (by decide) (by decide) (Or.inl (by decide))⟩

/-- The missing percentage computed by `analyze_missing_patterns` is never negative. -/
theorem missingPercentage_nonneg (col : List (Option ℚ)) : 0 ≤ missingPercentage col := by
  unfold missingPercentage
  positivity

/-- C7: `generate_imputation_recommendations` emits an entry for a column
exactly when its missing percentage is positive, and the first (primary)
recommendation is chosen by the fixed thresholds 50, 20 and 5 on that
percentage. -/
theorem imputation_recommendation_thresholds (column : String) (colData : List ℚ)
    (info : MissingInfo) (hpos : 0 ≤ info.missing_percentage) :
    ((genColumnRec column colData info).isSome = true ↔ 0 < info.missing_percentage)
    ∧ (0 < info.missing_percentage →
       ∃ rec, genColumnRec column colData info = some rec ∧
         rec.recommendations.head? = some (
           if info.missing_percentage > 50 then
             "Consider removing this column due to high missing percentage"
           else if info.missing_percentage > 20 then
             "High missing percentage - use sophisticated imputation"
           else if info.missing_percentage > 5 then
             "Moderate missing percentage - standard imputation appropriate"
           else "Low missing percentage - simple imputation sufficient")) := by
  constructor
  · by_cases h0 : info.missing_percentage = 0
    · simp [genColumnRec, h0]
    · have hgt : 0 < info.missing_percentage := lt_of_le_of_ne hpos (Ne.symm h0)
      simp [genColumnRec, h0, hgt]
  · intro hgt
    have h0 : ¬ info.missing_percentage = 0 := ne_of_gt hgt
    cases hcr : genColumnRec column colData info with
    | none =>
      exfalso
      unfold genColumnRec at hcr
      rw [if_neg h0] at hcr
      exact Option.noConfusion hcr
    | some rec =>
      refine ⟨rec, rfl, ?_⟩
      unfold genColumnRec at hcr
      rw [if_neg h0] at hcr
      have hrec := Option.some.inj hcr
      subst hrec
      simp only []
      split_ifs <;> simp

/-- Witness for `imputation_recommendation_thresholds` at a concrete
30-percent-missing float column. -/
theorem imputation_recommendation_thresholds_witness :
    ∃ rec, genColumnRec "age" [] ⟨30, "float64"⟩ = some rec ∧
      rec.recommendations.head? = some (
        if (30 : ℚ) > 50 then "Consider removing this column due to high missing percentage"
        else if (30 : ℚ) > 20 then "High missing percentage - use sophisticated imputation"
        else if (30 : ℚ) > 5 then "Moderate missing percentage - standard imputation appropriate"
        else "Low missing percentage - simple imputation sufficient") :=
  (imputation_recommendation_thresholds "age" [] ⟨30, "float64"⟩ (by decide)).2 (by decide)

/-- C10: `test_normality_shapiro` returns None on fewer than three
observations; otherwise the reported sample size is min(n, 5000), and for
n > 5000 the tested sample is the library's 5000-element draw without
replacement (a sub-multiset of the data, by the numpy contract). -/
theorem shapiro_sample_contract (shapiroLib : List ℚ → ℚ × ℚ)
    (choiceLib : List ℚ → Nat → List ℚ) (data : List ℚ)
    (hchoice : data.length > 5000 →
      (choiceLib data 5000).length = 5000 ∧ List.Subperm (choiceLib data 5000) data) :
    (data.length < 3 → test_normality_shapiro shapiroLib choiceLib data = none)
    ∧ (3 ≤ data.length →
        ∃ r, test_normality_shapiro shapiroLib choiceLib data = some r ∧
          r.sample_size = min data.length 5000)
    ∧ (data.length > 5000 →
        shapiroSample choiceLib data = choiceLib data 5000 ∧
        (shapiroSample choiceLib data).length = 5000 ∧
        List.Subperm (shapiroSample choiceLib data) data) := by
  refine ⟨?_, ?_, ?_⟩
  · intro h
    simp [test_normality_shapiro, h]
  · intro h3
    have hn : ¬ data.length < 3 := not_lt.mpr h3
    cases hcr : test_normality_shapiro shapiroLib choiceLib data with
    | none =>
      exfalso
      unfold test_normality_shapiro at hcr
      rw [if_neg hn] at hcr
      exact Option.noConfusion hcr
    | some r =>
      refine ⟨r, rfl, ?_⟩
      unfold test_normality_shapiro at hcr
      rw [if_neg hn] at hcr
      have hrec := Option.some.inj hcr
      subst hrec
      show (shapiroSample choiceLib data).length = min data.length 5000
      unfold shapiroSample
      by_cases hbig : data.length > 5000
      · rw [if_pos hbig, (hchoice hbig).1]
        omega
      · rw [if_neg hbig]
        omega
  · intro hbig
    obtain ⟨hlen, hsub⟩ := hchoice hbig
    unfold shapiroSample
    rw [if_pos hbig]
    exact ⟨rfl, hlen, hsub⟩

/-- Witness for `shapiro_sample_contract`: a three-element input reports
sample size three, a two-element input yields None. -/
theorem shapiro_sample_contract_witness :
    (∃ r, test_normality_shapiro (fun _ => (1, 1)) (fun d n => d.take n) [0, 1, 2] = some r ∧
       r.sample_size = min 3 5000) ∧
    test_normality_shapiro (fun _ => (1, 1)) (fun d n => d.take n) [0, 1] = none :=
  ⟨((shapiro_sample_contract (fun _ => (1, 1)) (fun d n => d.take n) [0, 1, 2]
      (fun h => absurd h (by decide))).2.1 (by decide)),
   ((shapiro_sample_contract (fun _ => (1, 1)) (fun d n => d.take n) [0, 1]
      (fun h => absurd h (by decide))).1 (by decide))⟩

end ChimariData
